import Mathlib

/-!
# Navicane smart-cane system: shallow embedding and verification

Shallow embedding, in Lean 4, of the core of the Navicane smart-cane
repository (`config.py`, `utils.py`, `ultrasonic.py`, `vibration.py`,
`speech.py`, `main.py`), together with theorems settling the spec's claims
about it.

Conventions:
* Python floats are modelled as rationals (`ℚ`).
* Python `int(x)` (truncation toward zero) is modelled by `pytrunc`.
* Python `round(x, 2)` (round half to even) is modelled by `pyRound2`.
* Python dictionaries keyed by strings are modelled as association lists
  with unique keys (`dictGet` / `dictSet` / `dictDel`).
* Each thread loop body is modelled as a step function on an explicit
  state, driven by a list of environment events (sensor readings,
  raised exceptions, recovery outcomes); running the loop is a fold of
  the step function, where an iteration that has executed `break`
  leaves the state unchanged.
-/

attribute [local semireducible] Rat.mul Rat.add Rat.sub Rat.inv Rat.ofScientific

namespace Navicane

/-- Python `int(x)` applied to a rational: truncation toward zero. -/
def pytrunc (q : ℚ) : ℤ :=
  if 0 ≤ q then ⌊q⌋ else -⌊-q⌋

/-- Python 3 `round` to an integer: round half to even. -/
def pyRoundInt (q : ℚ) : ℤ :=
  if q - ⌊q⌋ < 1/2 then ⌊q⌋
  else if 1/2 < q - ⌊q⌋ then ⌊q⌋ + 1
  else if ⌊q⌋ % 2 = 0 then ⌊q⌋ else ⌊q⌋ + 1

/-- Python `round(x, 2)`: round half to even at two decimal places. -/
def pyRound2 (q : ℚ) : ℚ :=
  (pyRoundInt (q * 100) : ℚ) / 100

/-! ## config.py -/

/-- `SENSOR_TIMEOUT` (seconds), from `config.py`. -/
def SENSOR_TIMEOUT : ℚ := 1/10

/-- `SPEECH_TRIGGER_DISTANCE` (cm), from `config.py`. -/
def SPEECH_TRIGGER_DISTANCE : ℚ := 80

/-- `CAMERA_TRIGGER_DISTANCE` (cm), from `config.py`. -/
def CAMERA_TRIGGER_DISTANCE : ℚ := 150

/-- `SPEECH_COOLDOWN` (seconds), from `config.py`. -/
def SPEECH_COOLDOWN : ℚ := 5

/-- Zone labels used by `vibration.py` (`no_reading` is the label returned
for a `None` distance). -/
inductive Zone where
  | critical
  | danger
  | warning
  | caution
  | clear
  | no_reading
  deriving DecidableEq, Repr

/-- `VIBRATION_RANGES` from `config.py`: the ordered zone table, each zone
with its `(min_dist, max_dist)` half-open interval in cm. Dictionary
iteration order in Python is insertion order, so the table is a list. -/
def VIBRATION_RANGES : List (Zone × ℚ × ℚ) :=
  [(Zone.critical, 0, 30),
   (Zone.danger, 30, 60),
   (Zone.warning, 60, 100),
   (Zone.caution, 100, 150),
   (Zone.clear, 150, 400)]

/-- `VIBRATION_PULSE_RATES` from `config.py` (Hz per zone). -/
def VIBRATION_PULSE_RATES (z : Zone) : ℕ :=
  match z with
  | Zone.critical => 0
  | Zone.danger => 5
  | Zone.warning => 2
  | Zone.caution => 1
  | _ => 0

/-! ## vibration.py: `VibrationController._calculate_intensity` -/

/-- The per-zone intensity formula from the body of the `for` loop in
`VibrationController._calculate_intensity` (only ever applied to the zone
that matched the distance). -/
def zoneIntensity (z : Zone) (d : ℚ) : ℤ :=
  match z with
  | Zone.critical => 100
  | Zone.danger => 100 - pytrunc ((d - 30) * 30 / 30)
  | Zone.warning => 70 - pytrunc ((d - 60) * 30 / 40)
  | Zone.caution => 40 - pytrunc ((d - 100) * 20 / 50)
  | _ => 0

/-- The `for zone_name, (min_dist, max_dist) in VIBRATION_RANGES.items()`
search: the first zone whose half-open interval `[min_dist, max_dist)`
contains the distance. -/
def findZone : List (Zone × ℚ × ℚ) → ℚ → Option Zone
  | [], _ => none
  | (z, lo, hi) :: rest, d =>
      if lo ≤ d ∧ d < hi then some z else findZone rest d

/-- `VibrationController._calculate_intensity(distance)`: returns
`(intensity, pulse_rate, zone_name)`; `None` maps to `(0, 0, no_reading)`
and a distance matching no interval falls through to `(0, 0, clear)`. -/
def calculate_intensity (distance : Option ℚ) : ℤ × ℕ × Zone :=
  match distance with
  | none => (0, 0, Zone.no_reading)
  | some d =>
      match findZone VIBRATION_RANGES d with
      | some z => (zoneIntensity z d, VIBRATION_PULSE_RATES z, z)
      | none => (0, 0, Zone.clear)

/-- A zone of the configured table matches a distance when the distance
lies in its half-open `[min, max)` interval. -/
def zoneMatches (z : Zone) (d : ℚ) : Prop :=
  ∃ lo hi, (z, lo, hi) ∈ VIBRATION_RANGES ∧ lo ≤ d ∧ d < hi

/-! ## vibration.py: `VibrationController` state

The controller's mutable fields, as far as a single-threaded view of
`update_from_distance` and `off` mutates them. `motor_level` is the last
duty cycle driven onto the PWM pin by `VibrationMotor.set_intensity`
(which clamps to `[0, 100]`); while a pulse sub-loop is active the pin
alternates, so `motor_level` then records the level applied at command
time. -/

structure VibState where
  pulse_active : Bool
  current_intensity : ℤ
  pulse_rate : ℕ
  motor_level : ℤ
  deriving DecidableEq, Repr

/-- `VibrationMotor.set_intensity`: clamp to `[0, 100]` and drive the pin. -/
def set_intensity (v : VibState) (intensity : ℤ) : VibState :=
  { v with motor_level := max 0 (min 100 intensity) }

/-- `VibrationController.off()`: stop the pulse sub-loop flag and drive 0. -/
def vib_off (v : VibState) : VibState :=
  set_intensity { v with pulse_active := false } 0

/-- `VibrationController.update_from_distance(distance)`: classify the
distance, record intensity and pulse rate, stop any running pulse
sub-loop, then either turn the motor off, drive it constantly, or start
a new pulse sub-loop. -/
def update_from_distance (v : VibState) (distance : Option ℚ) : VibState :=
  let r := calculate_intensity distance
  let intensity := r.1
  let pulse_rate := r.2.1
  let v1 := { v with current_intensity := intensity, pulse_rate := pulse_rate,
                     pulse_active := false }
  if intensity = 0 then set_intensity v1 0
  else if pulse_rate = 0 then set_intensity v1 intensity
  else { v1 with pulse_active := true }

/-! ## ultrasonic.py: `UltrasonicSensor.get_distance`

The environment of one measurement: each of the two echo-edge busy-poll
loops either observes the edge at some time or exceeds `SENSOR_TIMEOUT`
(modelled as `Option ℚ`, `none` = timeout), and the body may raise
(`exn`), which the `try/except` collapses to `None`. -/

/-- `UltrasonicSensor.get_distance()`. `riseTime`/`fallTime` are the times
recorded by the two polls (`none` if the poll timed out); `exn` is true
when some GPIO call raised. Every failure path returns `none`. -/
def get_distance (exn : Bool) (riseTime fallTime : Option ℚ) : Option ℚ :=
  if exn then none
  else
    match riseTime with
    | none => none
    | some pulse_start =>
        match fallTime with
        | none => none
        | some pulse_end =>
            let distance := pyRound2 ((pulse_end - pulse_start) * 17150)
            if 2 ≤ distance ∧ distance ≤ 400 then some distance else none

/-! ## utils.py: `RateLimiter`

`self.last_triggered` is a Python dict keyed by strings; modelled as an
association list with unique keys. `dictSet` is dict assignment (update
in place, append if new), `dictDel` removes the key's entry (`del`). -/

def dictGet {α : Type} : List (String × α) → String → Option α
  | [], _ => none
  | (k', v) :: rest, k => if k' = k then some v else dictGet rest k

def dictSet {α : Type} : List (String × α) → String → α → List (String × α)
  | [], k, v => [(k, v)]
  | (k', v') :: rest, k, v =>
      if k' = k then (k, v) :: rest else (k', v') :: dictSet rest k v

def dictDel {α : Type} : List (String × α) → String → List (String × α)
  | [], _ => []
  | (k', v') :: rest, k =>
      if k' = k then dictDel rest k else (k', v') :: dictDel rest k

/-- `RateLimiter`: cooldown plus the `last_triggered` dict. -/
structure RateLimiter where
  cooldown : ℚ
  last_triggered : List (String × ℚ)
  deriving DecidableEq, Repr

/-- `RateLimiter.can_trigger(key)` at time `now` (`time.time()` is passed
explicitly). Returns the boolean result and the updated state: a missing
entry is created (returning `True`), an entry older than the cooldown is
refreshed (returning `True`), otherwise `False` with the state
unchanged. -/
def can_trigger (rl : RateLimiter) (key : String) (now : ℚ) :
    Bool × RateLimiter :=
  match dictGet rl.last_triggered key with
  | none =>
      (true, { rl with last_triggered := dictSet rl.last_triggered key now })
  | some t =>
      if rl.cooldown ≤ now - t then
        (true, { rl with last_triggered := dictSet rl.last_triggered key now })
      else
        (false, rl)

/-- `RateLimiter.reset(key)`: delete the key's entry if present. -/
def reset (rl : RateLimiter) (key : String) : RateLimiter :=
  { rl with last_triggered := dictDel rl.last_triggered key }

/-! ## speech.py: `SmartSpeech` -/

/-- The `speech_map` literal from `SmartSpeech.announce_critical_object`. -/
def speech_map : List (String × String) :=
  [("person", "person"), ("chair", "chair"), ("car", "car"),
   ("bicycle", "bicycle"), ("motorbike", "motorcycle"), ("bus", "bus"),
   ("train", "train"), ("bottle", "bottle"), ("diningtable", "table"),
   ("dining table", "table"), ("pottedplant", "plant"),
   ("potted plant", "plant"), ("dog", "dog"), ("cat", "cat"),
   ("backpack", "backpack"), ("handbag", "bag"), ("suitcase", "suitcase"),
   ("laptop", "laptop"), ("cell phone", "phone"), ("book", "book"),
   ("sofa", "sofa"), ("bed", "bed"), ("tv", "television"),
   ("bench", "bench")]

/-- `speech_map.get(object_name, object_name)`. -/
def speechPhrase (object_name : String) : String :=
  (dictGet speech_map object_name).getD object_name

/-- `SmartSpeech` mutable state: the rate limiter and the `speaking` flag.
The flag is written by the spawned speech worker thread, so here it is an
input observed at call time. -/
structure SmartSpeech where
  rate_limiter : RateLimiter
  speaking : Bool
  deriving DecidableEq, Repr

/-- `SmartSpeech.speak(text, force)` at time `now`: skip when a prior
utterance is in flight (unless forced); when not forced, consult (and
thereby update) the rate limiter; otherwise start the speech worker and
return `True`. Note the forced path never touches the rate limiter. -/
def speak (s : SmartSpeech) (text : String) (force : Bool) (now : ℚ) :
    Bool × SmartSpeech :=
  if s.speaking ∧ ¬force then (false, s)
  else if ¬force then
    let r := can_trigger s.rate_limiter text now
    (r.1, { s with rate_limiter := r.2 })
  else (true, s)

/-- `SmartSpeech.announce_critical_object(object_name, distance)` at time
`now`: reject a `None` or non-critical distance; below 30 cm, reset the
cooldown entry for the warning phrase and speak it forced; otherwise
speak the phrase unforced. -/
def announce_critical_object (s : SmartSpeech) (object_name : String)
    (distance : Option ℚ) (now : ℚ) : Bool × SmartSpeech :=
  match distance with
  | none => (false, s)
  | some d =>
      if SPEECH_TRIGGER_DISTANCE ≤ d then (false, s)
      else
        let speech_text := speechPhrase object_name
        if d < 30 then
          let warn := "Warning " ++ speech_text
          let s1 := { s with rate_limiter := reset s.rate_limiter warn }
          speak s1 warn true now
        else
          speak s speech_text false now

/-! ## main.py: the two supervisor loops

Each loop body is a step function driven by one environment event per
iteration. An iteration either runs to completion, or raises somewhere in
its body and is handled by the `except` clause. After the loop has
executed `break` (`stopped`), further events leave the state unchanged. -/

/-- `max_errors` of `SmartCane._ultrasonic_vibration_loop`. -/
def fast_max_errors : ℕ := 10

/-- `max_errors` of `SmartCane._camera_speech_loop`. -/
def slow_max_errors : ℕ := 5

/-- Environment event for one fast-loop iteration: either
`ultrasonic.read_distance()` returned `d` (where `none` covers a
SensorTimeout or out-of-range reading, both recovered locally inside
`get_distance`) and the rest of the body succeeded, or the body raised. -/
inductive FastEvent where
  | measurement (d : Option ℚ)
  | failure
  deriving DecidableEq, Repr

/-- State of `SmartCane._ultrasonic_vibration_loop` together with the
shared distance slot and the vibration controller it drives. -/
structure FastState where
  consecutive_errors : ℕ
  current_distance : Option ℚ
  vib : VibState
  stopped : Bool
  deriving DecidableEq, Repr

/-- One iteration of `_ultrasonic_vibration_loop`: on success publish the
distance, update the vibration from it and reset the error counter; on an
exception increment the counter, force the vibration off, and `break`
once `consecutive_errors >= max_errors`. -/
def fastIter (s : FastState) (ev : FastEvent) : FastState :=
  if s.stopped then s
  else
    match ev with
    | FastEvent.measurement d =>
        { s with current_distance := d,
                 vib := update_from_distance s.vib d,
                 consecutive_errors := 0 }
    | FastEvent.failure =>
        let errors := s.consecutive_errors + 1
        { s with consecutive_errors := errors,
                 vib := vib_off s.vib,
                 stopped := decide (fast_max_errors ≤ errors) }

/-- Run the fast loop over a list of iteration events. -/
def runFast (s : FastState) (evs : List FastEvent) : FastState :=
  evs.foldl fastIter s

/-- Fast-loop state at thread start. -/
def initFast : FastState :=
  { consecutive_errors := 0, current_distance := none,
    vib := { pulse_active := false, current_intensity := 0,
             pulse_rate := 0, motor_level := 0 },
    stopped := false }

/-- Environment event for one slow-loop iteration: a completed announce
path (resets the error counter), an early `continue` (distance too far,
no detections, nothing in center — the counter is untouched), or a raised
exception; `recoveryOk` tells whether re-creating `CameraManager` would
succeed if this failure drives the counter to the ceiling. -/
inductive SlowEvent where
  | iteration
  | skip
  | failure (recoveryOk : Bool)
  deriving DecidableEq, Repr

/-- State of `SmartCane._camera_speech_loop`. `recovery_attempts` counts
entries into the recovery branch, `camera_reinits` the successful
re-creations of `CameraManager`. -/
structure SlowState where
  consecutive_errors : ℕ
  recovery_attempts : ℕ
  camera_reinits : ℕ
  stopped : Bool
  deriving DecidableEq, Repr

/-- One iteration of `_camera_speech_loop`: exceptions increment the
counter; at `consecutive_errors >= max_errors` the loop attempts one
camera reinitialization — success resets the counter and continues,
failure executes `break`. -/
def slowIter (s : SlowState) (ev : SlowEvent) : SlowState :=
  if s.stopped then s
  else
    match ev with
    | SlowEvent.iteration => { s with consecutive_errors := 0 }
    | SlowEvent.skip => s
    | SlowEvent.failure recoveryOk =>
        let errors := s.consecutive_errors + 1
        if slow_max_errors ≤ errors then
          if recoveryOk then
            { s with consecutive_errors := 0,
                     recovery_attempts := s.recovery_attempts + 1,
                     camera_reinits := s.camera_reinits + 1 }
          else
            { s with consecutive_errors := errors,
                     recovery_attempts := s.recovery_attempts + 1,
                     stopped := true }
        else { s with consecutive_errors := errors }

/-- Run the slow loop over a list of iteration events. -/
def runSlow (s : SlowState) (evs : List SlowEvent) : SlowState :=
  evs.foldl slowIter s

/-- Slow-loop state at thread start. -/
def initSlow : SlowState :=
  { consecutive_errors := 0, recovery_attempts := 0,
    camera_reinits := 0, stopped := false }

/-- A list of intensities is nondecreasing (used to state the monotone
intensity property of the approach scenario). -/
def nondecreasing : List ℤ → Bool
  | a :: b :: rest => decide (a ≤ b) && nondecreasing (b :: rest)
  | _ => true

/-! ## Helper lemmas -/

/-- On nonnegative arguments Python truncation agrees with the floor. -/
theorem pytrunc_of_nonneg (q : ℚ) (h : 0 ≤ q) : pytrunc q = ⌊q⌋ := by
  simp [pytrunc, h]

/-- Evaluate `pytrunc` from integer bounds on its argument. -/
theorem pytrunc_eq (q : ℚ) (n : ℤ) (hn : 0 ≤ n) (h1 : (n : ℚ) ≤ q)
    (h2 : q < n + 1) : pytrunc q = n := by
  have hq : (0 : ℚ) ≤ q := le_trans (by exact_mod_cast hn) h1
  rw [pytrunc_of_nonneg q hq]
  rw [Int.floor_eq_iff]
  · exact ⟨h1, by exact_mod_cast h2⟩

theorem calc_critical (d : ℚ) (h0 : 0 ≤ d) (h1 : d < 30) :
    calculate_intensity (some d) = (100, 0, Zone.critical) := by
  simp only [calculate_intensity, findZone, VIBRATION_RANGES]
  rw [if_pos ⟨h0, h1⟩]
  rfl

theorem calc_danger (d : ℚ) (h0 : 30 ≤ d) (h1 : d < 60) :
    calculate_intensity (some d) =
      (100 - pytrunc ((d - 30) * 30 / 30), 5, Zone.danger) := by
  simp only [calculate_intensity, findZone, VIBRATION_RANGES]
  rw [if_neg (by rintro ⟨-, h⟩; linarith), if_pos ⟨h0, h1⟩]
  rfl

theorem calc_warning (d : ℚ) (h0 : 60 ≤ d) (h1 : d < 100) :
    calculate_intensity (some d) =
      (70 - pytrunc ((d - 60) * 30 / 40), 2, Zone.warning) := by
  simp only [calculate_intensity, findZone, VIBRATION_RANGES]
  rw [if_neg (by rintro ⟨-, h⟩; linarith),
    if_neg (by rintro ⟨-, h⟩; linarith), if_pos ⟨h0, h1⟩]
  rfl

theorem calc_caution (d : ℚ) (h0 : 100 ≤ d) (h1 : d < 150) :
    calculate_intensity (some d) =
      (40 - pytrunc ((d - 100) * 20 / 50), 1, Zone.caution) := by
  simp only [calculate_intensity, findZone, VIBRATION_RANGES]
  rw [if_neg (by rintro ⟨-, h⟩; linarith),
    if_neg (by rintro ⟨-, h⟩; linarith),
    if_neg (by rintro ⟨-, h⟩; linarith), if_pos ⟨h0, h1⟩]
  rfl

theorem calc_clear (d : ℚ) (h0 : 150 ≤ d) (h1 : d < 400) :
    calculate_intensity (some d) = (0, 0, Zone.clear) := by
  simp only [calculate_intensity, findZone, VIBRATION_RANGES]
  rw [if_neg (by rintro ⟨-, h⟩; linarith),
    if_neg (by rintro ⟨-, h⟩; linarith),
    if_neg (by rintro ⟨-, h⟩; linarith),
    if_neg (by rintro ⟨-, h⟩; linarith), if_pos ⟨h0, h1⟩]
  rfl

theorem calc_fallback (d : ℚ) (h : d < 0 ∨ 400 ≤ d) :
    calculate_intensity (some d) = (0, 0, Zone.clear) := by
  have hz : findZone VIBRATION_RANGES d = none := by
    simp only [findZone, VIBRATION_RANGES]
    rcases h with h | h
    · rw [if_neg (by rintro ⟨h0, -⟩; linarith),
        if_neg (by rintro ⟨h0, -⟩; linarith),
        if_neg (by rintro ⟨h0, -⟩; linarith),
        if_neg (by rintro ⟨h0, -⟩; linarith),
        if_neg (by rintro ⟨h0, -⟩; linarith)]
    · rw [if_neg (by rintro ⟨-, h1⟩; linarith),
        if_neg (by rintro ⟨-, h1⟩; linarith),
        if_neg (by rintro ⟨-, h1⟩; linarith),
        if_neg (by rintro ⟨-, h1⟩; linarith),
        if_neg (by rintro ⟨-, h1⟩; linarith)]
  simp [calculate_intensity, hz]

/-- Membership in the configured zone table, spelled out. -/
theorem zoneMatches_iff (z : Zone) (d : ℚ) :
    zoneMatches z d ↔
      ((z = Zone.critical ∧ 0 ≤ d ∧ d < 30)
        ∨ (z = Zone.danger ∧ 30 ≤ d ∧ d < 60)
        ∨ (z = Zone.warning ∧ 60 ≤ d ∧ d < 100)
        ∨ (z = Zone.caution ∧ 100 ≤ d ∧ d < 150)
        ∨ (z = Zone.clear ∧ 150 ≤ d ∧ d < 400)) := by
  constructor
  · rintro ⟨lo, hi, hmem, h1, h2⟩
    simp only [VIBRATION_RANGES, List.mem_cons, List.mem_singleton,
      Prod.mk.injEq, List.not_mem_nil, or_false] at hmem
    rcases hmem with ⟨rfl, rfl, rfl⟩ | ⟨rfl, rfl, rfl⟩ | ⟨rfl, rfl, rfl⟩
      | ⟨rfl, rfl, rfl⟩ | ⟨rfl, rfl, rfl⟩
    · exact Or.inl ⟨rfl, h1, h2⟩
    · exact Or.inr (Or.inl ⟨rfl, h1, h2⟩)
    · exact Or.inr (Or.inr (Or.inl ⟨rfl, h1, h2⟩))
    · exact Or.inr (Or.inr (Or.inr (Or.inl ⟨rfl, h1, h2⟩)))
    · exact Or.inr (Or.inr (Or.inr (Or.inr ⟨rfl, h1, h2⟩)))
  · rintro (⟨rfl, h1, h2⟩ | ⟨rfl, h1, h2⟩ | ⟨rfl, h1, h2⟩
      | ⟨rfl, h1, h2⟩ | ⟨rfl, h1, h2⟩)
    · exact ⟨0, 30, by simp [VIBRATION_RANGES], h1, h2⟩
    · exact ⟨30, 60, by simp [VIBRATION_RANGES], h1, h2⟩
    · exact ⟨60, 100, by simp [VIBRATION_RANGES], h1, h2⟩
    · exact ⟨100, 150, by simp [VIBRATION_RANGES], h1, h2⟩
    · exact ⟨150, 400, by simp [VIBRATION_RANGES], h1, h2⟩

theorem dictGet_dictSet {α : Type} (m : List (String × α)) (k : String) (v : α) :
    dictGet (dictSet m k v) k = some v := by
  induction m with
  | nil => simp [dictSet, dictGet]
  | cons hd tl ih =>
      by_cases h : hd.1 = k
      · simp [dictSet, dictGet, h]
      · simp [dictSet, dictGet, h, ih]

theorem dictGet_dictDel {α : Type} (m : List (String × α)) (k : String) :
    dictGet (dictDel m k) k = none := by
  induction m with
  | nil => simp [dictDel, dictGet]
  | cons hd tl ih =>
      by_cases h : hd.1 = k
      · simp [dictDel, h, ih]
      · simp [dictDel, dictGet, h, ih]

/-- A forced `speak` call returns `True` and leaves the whole state (in
particular the rate limiter) unchanged: the `force=True` path short-circuits
past both the overlap check and the cooldown check. -/
theorem speak_forced (s : SmartSpeech) (k : String) (now : ℚ) :
    speak s k true now = (true, s) := by
  simp [speak]

/-- A fast-loop run over exception-free iterations never stops. -/
theorem runFast_no_failure_not_stopped (evs : List FastEvent) :
    ∀ s : FastState, s.stopped = false →
      (∀ e ∈ evs, e ≠ FastEvent.failure) → (runFast s evs).stopped = false := by
  induction evs with
  | nil => intro s hs _; exact hs
  | cons e rest ih =>
      intro s hs hall
      have he : e ≠ FastEvent.failure := hall e (List.mem_cons_self e rest)
      have hrest : ∀ e' ∈ rest, e' ≠ FastEvent.failure :=
        fun e' h' => hall e' (List.mem_cons_of_mem e h')
      have hstep : (fastIter s e).stopped = false := by
        cases e with
        | measurement d => simp [fastIter, hs]
        | failure => exact absurd rfl he
      exact ih (fastIter s e) hstep hrest

/-! ## Claims -/

/-- C8: feeding the distance sequence `[200, 90, 55, 25, 5]` to the zone
classification yields the zone sequence
`[clear, warning, danger, critical, critical]`, and the corresponding
intensity sequence `[0, 48, 75, 100, 100]` is nondecreasing as distance
decreases. -/
theorem c8_approach_sequence :
    (([200, 90, 55, 25, 5] : List ℚ).map
        (fun d => (calculate_intensity (some d)).2.2)
      = [Zone.clear, Zone.warning, Zone.danger, Zone.critical, Zone.critical])
    ∧ (([200, 90, 55, 25, 5] : List ℚ).map
        (fun d => (calculate_intensity (some d)).1)
      = [0, 48, 75, 100, 100])
    ∧ nondecreasing (([200, 90, 55, 25, 5] : List ℚ).map
        (fun d => (calculate_intensity (some d)).1)) = true := by
  decide

/-- C10: for every distance outside the configured zone table — 400 cm or
more (the clear interval's exclusive upper bound) or negative — no
configured interval matches and `_calculate_intensity` returns the
fallback `(0, 0, clear)`, so the classification is total over all
rational inputs. -/
theorem c10_fallback_out_of_table (d : ℚ) (h : 400 ≤ d ∨ d < 0) :
    (¬ ∃ z, zoneMatches z d)
    ∧ calculate_intensity (some d) = (0, 0, Zone.clear) := by
  constructor
  · rintro ⟨z, hz⟩
    rcases (zoneMatches_iff z d).mp hz with ⟨-, h1, h2⟩ | ⟨-, h1, h2⟩
      | ⟨-, h1, h2⟩ | ⟨-, h1, h2⟩ | ⟨-, h1, h2⟩ <;>
      rcases h with h | h <;> linarith
  · exact calc_fallback d (Or.symm h)

/-- C10 witness: the theorem applied at the concrete distances 450 and
-5. -/
theorem c10_fallback_out_of_table_witness :
    ((¬ ∃ z, zoneMatches z (450 : ℚ))
      ∧ calculate_intensity (some 450) = (0, 0, Zone.clear))
    ∧ ((¬ ∃ z, zoneMatches z (-5 : ℚ))
      ∧ calculate_intensity (some (-5)) = (0, 0, Zone.clear)) :=
  ⟨c10_fallback_out_of_table 450 (Or.inl (by norm_num)),
   c10_fallback_out_of_table (-5) (Or.inr (by norm_num))⟩

/-- C5 counterexample: 400 cm is a valid distance (the sensor's physical
range is `[2, 400]` inclusive), yet no zone of the configured table
matches it — the `clear` interval is `[150, 400)`, so the zone intervals
do not cover `[0, ∞)` and a valid distance can match zero zones
(`_calculate_intensity` only covers it through the fallback branch). -/
theorem c5_counterexample :
    ((2 : ℚ) ≤ 400 ∧ (400 : ℚ) ≤ 400) ∧ ¬ ∃ z, zoneMatches z (400 : ℚ) := by
  refine ⟨⟨by norm_num, le_refl _⟩, ?_⟩
  rintro ⟨z, hz⟩
  rcases (zoneMatches_iff z 400).mp hz with ⟨-, h1, h2⟩ | ⟨-, h1, h2⟩
    | ⟨-, h1, h2⟩ | ⟨-, h1, h2⟩ | ⟨-, h1, h2⟩ <;> linarith

/-- C5 (amended): the zone classification is a pure total function: a
`None` input maps to `(0, 0, no_reading)`; for any distance in `[0, 400)`
exactly one zone of the configured table matches (lower bound inclusive,
upper bound exclusive, no gaps, no overlaps); distances outside `[0, 400)`
match no interval and are covered by the fallback `(0, 0, clear)`, so the
configured intervals cover `[0, 400)` rather than `[0, ∞)`. -/
theorem c5_classification_total :
    calculate_intensity none = (0, 0, Zone.no_reading)
    ∧ (∀ d : ℚ, 0 ≤ d → d < 400 → ∃! z, zoneMatches z d)
    ∧ (∀ d : ℚ, d < 0 ∨ 400 ≤ d →
        calculate_intensity (some d) = (0, 0, Zone.clear)) := by
  refine ⟨rfl, ?_, calc_fallback⟩
  intro d h0 h400
  by_cases h30 : d < 30
  · refine ⟨Zone.critical, (zoneMatches_iff _ d).mpr (Or.inl ⟨rfl, h0, h30⟩), ?_⟩
    intro z hz
    rcases (zoneMatches_iff z d).mp hz with ⟨rfl, -, -⟩ | ⟨-, h1, -⟩
      | ⟨-, h1, -⟩ | ⟨-, h1, -⟩ | ⟨-, h1, -⟩
    · rfl
    all_goals linarith
  by_cases h60 : d < 60
  · refine ⟨Zone.danger, (zoneMatches_iff _ d).mpr
      (Or.inr (Or.inl ⟨rfl, by linarith, h60⟩)), ?_⟩
    intro z hz
    rcases (zoneMatches_iff z d).mp hz with ⟨-, -, h2⟩ | ⟨rfl, -, -⟩
      | ⟨-, h1, -⟩ | ⟨-, h1, -⟩ | ⟨-, h1, -⟩
    · linarith
    · rfl
    all_goals linarith
  by_cases h100 : d < 100
  · refine ⟨Zone.warning, (zoneMatches_iff _ d).mpr
      (Or.inr (Or.inr (Or.inl ⟨rfl, by linarith, h100⟩))), ?_⟩
    intro z hz
    rcases (zoneMatches_iff z d).mp hz with ⟨-, -, h2⟩ | ⟨-, -, h2⟩
      | ⟨rfl, -, -⟩ | ⟨-, h1, -⟩ | ⟨-, h1, -⟩
    · linarith
    · linarith
    · rfl
    all_goals linarith
  by_cases h150 : d < 150
  · refine ⟨Zone.caution, (zoneMatches_iff _ d).mpr
      (Or.inr (Or.inr (Or.inr (Or.inl ⟨rfl, by linarith, h150⟩)))), ?_⟩
    intro z hz
    rcases (zoneMatches_iff z d).mp hz with ⟨-, -, h2⟩ | ⟨-, -, h2⟩
      | ⟨-, -, h2⟩ | ⟨rfl, -, -⟩ | ⟨-, h1, -⟩
    · linarith
    · linarith
    · linarith
    · rfl
    · linarith
  · refine ⟨Zone.clear, (zoneMatches_iff _ d).mpr
      (Or.inr (Or.inr (Or.inr (Or.inr ⟨rfl, by linarith, h400⟩)))), ?_⟩
    intro z hz
    rcases (zoneMatches_iff z d).mp hz with ⟨-, -, h2⟩ | ⟨-, -, h2⟩
      | ⟨-, -, h2⟩ | ⟨-, -, h2⟩ | ⟨rfl, -, -⟩
    · linarith
    · linarith
    · linarith
    · linarith
    · rfl

/-- C5 witness: the amended theorem applied at the concrete distance 75
(exactly one zone — `warning` — matches it) and at -1. -/
theorem c5_classification_total_witness :
    (∃! z, zoneMatches z (75 : ℚ))
    ∧ calculate_intensity (some (-1)) = (0, 0, Zone.clear) :=
  ⟨c5_classification_total.2.1 75 (by norm_num) (by norm_num),
   c5_classification_total.2.2 (-1) (Or.inl (by norm_num))⟩

/-- C4 counterexample: at the boundary 150 between the adjacent zones
`caution` and `clear` the interpolated intensity is not continuous to
within rounding: just below the boundary (149.9 cm) the intensity is 21,
at the boundary it is 0 — a jump of 21, far beyond the rounding error of
the linear interpolation. -/
theorem c4_counterexample :
    (calculate_intensity (some (1499/10))).1 = 21
    ∧ (calculate_intensity (some 150)).1 = 0
    ∧ ¬ (|(calculate_intensity (some (1499/10))).1
          - (calculate_intensity (some 150)).1| ≤ 1) := by
  decide

/-- C4 (amended): the intensity is continuous to within rounding (the
values just below and at the boundary differ by at most 1, the
truncation error of `int()`) at the zone boundaries 30, 60 and 100, but
not at 150: for every offset `δ` in `(0, 1]`, the intensity at `150 - δ`
is 21 while the intensity at 150 is 0. -/
theorem c4_boundary_continuity (δ : ℚ) (h0 : 0 < δ) (h1 : δ ≤ 1) :
    |(calculate_intensity (some (30 - δ))).1
      - (calculate_intensity (some 30)).1| ≤ 1
    ∧ |(calculate_intensity (some (60 - δ))).1
      - (calculate_intensity (some 60)).1| ≤ 1
    ∧ |(calculate_intensity (some (100 - δ))).1
      - (calculate_intensity (some 100)).1| ≤ 1
    ∧ (calculate_intensity (some (150 - δ))).1 = 21
    ∧ (calculate_intensity (some 150)).1 = 0 := by
  have e30l : calculate_intensity (some (30 - δ)) = (100, 0, Zone.critical) :=
    calc_critical _ (by linarith) (by linarith)
  have e30r : calculate_intensity (some (30 : ℚ)) =
      (100 - pytrunc ((30 - 30) * 30 / 30), 5, Zone.danger) :=
    calc_danger _ (by norm_num) (by norm_num)
  have e60l : calculate_intensity (some (60 - δ)) =
      (100 - pytrunc ((60 - δ - 30) * 30 / 30), 5, Zone.danger) :=
    calc_danger _ (by linarith) (by linarith)
  have e60r : calculate_intensity (some (60 : ℚ)) =
      (70 - pytrunc ((60 - 60) * 30 / 40), 2, Zone.warning) :=
    calc_warning _ (by norm_num) (by norm_num)
  have e100l : calculate_intensity (some (100 - δ)) =
      (70 - pytrunc ((100 - δ - 60) * 30 / 40), 2, Zone.warning) :=
    calc_warning _ (by linarith) (by linarith)
  have e100r : calculate_intensity (some (100 : ℚ)) =
      (40 - pytrunc ((100 - 100) * 20 / 50), 1, Zone.caution) :=
    calc_caution _ (by norm_num) (by norm_num)
  have e150l : calculate_intensity (some (150 - δ)) =
      (40 - pytrunc ((150 - δ - 100) * 20 / 50), 1, Zone.caution) :=
    calc_caution _ (by linarith) (by linarith)
  have e150r : calculate_intensity (some (150 : ℚ)) = (0, 0, Zone.clear) :=
    calc_clear _ (by norm_num) (by norm_num)
  have t0 : pytrunc (((30 : ℚ) - 30) * 30 / 30) = 0 := by
    norm_num [pytrunc]
  have t0' : pytrunc (((60 : ℚ) - 60) * 30 / 40) = 0 := by
    norm_num [pytrunc]
  have t0'' : pytrunc (((100 : ℚ) - 100) * 20 / 50) = 0 := by
    norm_num [pytrunc]
  have t29 : pytrunc ((60 - δ - 30) * 30 / 30) = 29 := by
    apply pytrunc_eq _ 29 (by norm_num)
    · push_cast; linarith
    · push_cast; linarith
  have t29' : pytrunc ((100 - δ - 60) * 30 / 40) = 29 := by
    apply pytrunc_eq _ 29 (by norm_num)
    · push_cast; linarith
    · push_cast; linarith
  have t19 : pytrunc ((150 - δ - 100) * 20 / 50) = 19 := by
    apply pytrunc_eq _ 19 (by norm_num)
    · push_cast; linarith
    · push_cast; linarith
  refine ⟨?_, ?_, ?_, ?_, ?_⟩
  · rw [e30l, e30r, t0]; norm_num
  · rw [e60l, e60r, t29, t0']; norm_num
  · rw [e100l, e100r, t29', t0'']; norm_num
  · rw [e150l, t19]; norm_num
  · rw [e150r]

/-- C6: a non-forced `can_trigger(k)` at time `now` returns `True` and
records `now` as the last-fire time iff no entry exists for `k` or the
cooldown has elapsed since the recorded time; otherwise it returns
`False` and leaves the state unchanged; and after `reset(k)` the
immediately following call for `k` returns `True` regardless of prior
state. -/
theorem c6_try_fire_semantics (rl : RateLimiter) (k : String) (now : ℚ) :
    ((can_trigger rl k now).1 = true ↔
      dictGet rl.last_triggered k = none
      ∨ ∃ t, dictGet rl.last_triggered k = some t ∧ rl.cooldown ≤ now - t)
    ∧ ((can_trigger rl k now).1 = true →
        dictGet (can_trigger rl k now).2.last_triggered k = some now)
    ∧ ((can_trigger rl k now).1 = false → (can_trigger rl k now).2 = rl)
    ∧ (can_trigger (reset rl k) k now).1 = true := by
  have hreset : dictGet (reset rl k).last_triggered k = none :=
    dictGet_dictDel _ _
  have hlast : (can_trigger (reset rl k) k now).1 = true := by
    simp only [can_trigger, hreset]
  cases hg : dictGet rl.last_triggered k with
  | none =>
      have he : can_trigger rl k now =
          (true, { rl with last_triggered := dictSet rl.last_triggered k now }) := by
        simp only [can_trigger, hg]
      rw [he]
      refine ⟨iff_of_true rfl (Or.inl rfl),
        fun _ => dictGet_dictSet _ _ _, ?_, hlast⟩
      intro h; simp at h
  | some t =>
      by_cases hc : rl.cooldown ≤ now - t
      · have he : can_trigger rl k now =
            (true, { rl with last_triggered := dictSet rl.last_triggered k now }) := by
          simp only [can_trigger, hg, if_pos hc]
        rw [he]
        refine ⟨iff_of_true rfl (Or.inr ⟨t, rfl, hc⟩),
          fun _ => dictGet_dictSet _ _ _, ?_, hlast⟩
        intro h; simp at h
      · have he : can_trigger rl k now = (false, rl) := by
          simp only [can_trigger, hg, if_neg hc]
        rw [he]
        refine ⟨iff_of_false (by simp) ?_, ?_, fun _ => rfl, hlast⟩
        · rintro (h | ⟨t', ht', hc'⟩)
          · exact Option.noConfusion h
          · cases Option.some.inj ht'
            exact hc hc'
        · intro h; simp at h

/-- C6 witness: the theorem applied at a concrete limiter state — an
entry for "person" at time 3 with cooldown 5; a call at time 4 after a
reset succeeds. -/
theorem c6_try_fire_semantics_witness :
    (can_trigger (reset ⟨5, [("person", 3)]⟩ "person") "person" 4).1 = true :=
  (c6_try_fire_semantics ⟨5, [("person", 3)]⟩ "person" 4).2.2.2

/-- C3 counterexample: from an empty rate-limiter state (cooldown 5 s), a
forced trigger of key "person" at time 0 returns `True` but records no
last-fire time for the key (the state is unchanged), and the immediately
following non-forced trigger at time 4 — within the cooldown window that
the claim says restarts from the forced call — returns `True`, not
`False`. -/
theorem c3_counterexample :
    speak ⟨⟨5, []⟩, false⟩ "person" true 0 = (true, ⟨⟨5, []⟩, false⟩)
    ∧ dictGet (speak ⟨⟨5, []⟩, false⟩ "person" true 0).2.rate_limiter.last_triggered
        "person" = none
    ∧ (speak ⟨⟨5, []⟩, false⟩ "person" false 4).1 = true := by
  decide

/-- C3 (amended): a forced trigger (`speak` with `force=True`) always
returns `True` but records nothing in the rate limiter (the state is
unchanged); the critical-announcement path first deletes any prior entry
for the warning key and then speaks it forced. Consequently the cooldown
window does not restart from a forced call: a subsequent non-forced
trigger of a key with no recorded entry returns `True` and records its
own time. -/
theorem c3_forced_records_nothing (s : SmartSpeech) (k name : String)
    (now t2 : ℚ) :
    speak s k true now = (true, s)
    ∧ (s.speaking = false → dictGet s.rate_limiter.last_triggered k = none →
        (speak s k false t2).1 = true
        ∧ dictGet (speak s k false t2).2.rate_limiter.last_triggered k = some t2)
    ∧ (∀ d : ℚ, d < 30 →
        announce_critical_object s name (some d) now
          = (true,
             { s with
               rate_limiter :=
                 reset s.rate_limiter ("Warning " ++ speechPhrase name) })) := by
  refine ⟨speak_forced s k now, ?_, ?_⟩
  · intro h1 h2
    constructor
    · simp [speak, h1, can_trigger, h2]
    · simp [speak, h1, can_trigger, h2, dictGet_dictSet]
  · intro d hd
    have h80 : ¬ SPEECH_TRIGGER_DISTANCE ≤ d := by
      rw [SPEECH_TRIGGER_DISTANCE]; linarith
    simp only [announce_critical_object, if_neg h80, if_pos hd]
    exact speak_forced _ _ _

/-- C3 witness: the amended theorem applied at concrete states — a forced
call at time 3 on an empty-limiter state, a non-forced call at time 4,
and a critical announcement of "person" at 10 cm. -/
theorem c3_forced_records_nothing_witness :
    speak ⟨⟨5, []⟩, false⟩ "x" true 3 = (true, ⟨⟨5, []⟩, false⟩)
    ∧ ((speak ⟨⟨5, []⟩, false⟩ "x" false 4).1 = true
      ∧ dictGet (speak ⟨⟨5, []⟩, false⟩ "x" false 4).2.rate_limiter.last_triggered
          "x" = some 4)
    ∧ announce_critical_object ⟨⟨5, []⟩, false⟩ "person" (some 10) 3
        = (true,
           { (⟨⟨5, []⟩, false⟩ : SmartSpeech) with
             rate_limiter :=
               reset ⟨5, []⟩ ("Warning " ++ speechPhrase "person") }) :=
  ⟨(c3_forced_records_nothing ⟨⟨5, []⟩, false⟩ "x" "person" 3 4).1,
   (c3_forced_records_nothing ⟨⟨5, []⟩, false⟩ "x" "person" 3 4).2.1 rfl rfl,
   (c3_forced_records_nothing ⟨⟨5, []⟩, false⟩ "x" "person" 3 4).2.2 10
     (by norm_num)⟩

/-- C7: `get_distance` returns `None` whenever either echo-edge poll
times out, the body raises, or the computed (rounded) distance falls
outside `[2, 400]` cm; and any non-`None` result lies in `[2, 400]`. -/
theorem c7_get_distance_failure_paths (exn : Bool) (rise fall : Option ℚ) :
    (exn = true → get_distance exn rise fall = none)
    ∧ (rise = none → get_distance exn rise fall = none)
    ∧ (fall = none → get_distance exn rise fall = none)
    ∧ (∀ a b, rise = some a → fall = some b →
        ¬ (2 ≤ pyRound2 ((b - a) * 17150) ∧ pyRound2 ((b - a) * 17150) ≤ 400) →
        get_distance exn rise fall = none)
    ∧ (∀ d, get_distance exn rise fall = some d → 2 ≤ d ∧ d ≤ 400) := by
  cases exn with
  | true => simp [get_distance]
  | false =>
      cases rise with
      | none => simp [get_distance]
      | some a =>
          cases fall with
          | none => simp [get_distance]
          | some b =>
              refine ⟨?_, ?_, ?_, ?_, ?_⟩
              · intro h; cases h
              · intro h; cases h
              · intro h; cases h
              · intro a' b' ha hb hout
                cases Option.some.injEq a a' ▸ ha with
                | refl =>
                    cases Option.some.injEq b b' ▸ hb with
                    | refl => simp [get_distance, if_neg hout]
              · intro d hd
                by_cases hin : 2 ≤ pyRound2 ((b - a) * 17150)
                    ∧ pyRound2 ((b - a) * 17150) ≤ 400
                · simp only [get_distance, if_pos hin, Bool.false_eq_true,
                    if_false, Option.some.injEq] at hd
                  rw [← hd]; exact hin
                · simp [get_distance, if_neg hin] at hd

/-- C7 witness: the theorem applied at a concrete successful measurement
(echo edges 1 ms apart give 17.15 cm, inside the physical range) — its
result is in `[2, 400]`. -/
theorem c7_get_distance_failure_paths_witness :
    2 ≤ (343/20 : ℚ) ∧ (343/20 : ℚ) ≤ 400 :=
  (c7_get_distance_failure_paths false (some 0) (some (1/1000))).2.2.2.2
    (343/20) (by decide)

/-- C1 counterexample: ten consecutive SensorTimeouts do not terminate
the fast loop. A timeout inside `get_distance` is recovered locally as a
`None` reading, so the loop iteration succeeds and resets
`consecutive_errors` to 0 — after ten timeout iterations the loop is
still running with a zero error counter (the claim says the 10th timeout
terminates it). -/
theorem c1_counterexample :
    (runFast initFast (List.replicate 10 (FastEvent.measurement none))).stopped
      = false
    ∧ (runFast initFast
        (List.replicate 10 (FastEvent.measurement none))).consecutive_errors
      = 0 := by
  decide

/-- C1 (amended): SensorTimeouts never terminate the fast loop — they are
successful iterations (the `None` reading resets the error counter and
turns the vibration off); what terminates it is ten consecutive
exception-raising iterations: nine leave it running, the tenth stops it
with the actuator forced off; and any successful iteration resets the
error counter to 0 and keeps the loop running. -/
theorem c1_fast_loop_termination :
    (runFast initFast (List.replicate 9 FastEvent.failure)).stopped = false
    ∧ (runFast initFast (List.replicate 10 FastEvent.failure)).stopped = true
    ∧ (runFast initFast (List.replicate 10 FastEvent.failure)).vib.motor_level
      = 0
    ∧ (runFast initFast (List.replicate 10 FastEvent.failure)).vib.pulse_active
      = false
    ∧ (∀ (s : FastState) (d : Option ℚ), s.stopped = false →
        (fastIter s (FastEvent.measurement d)).consecutive_errors = 0
        ∧ (fastIter s (FastEvent.measurement d)).stopped = false)
    ∧ (∀ (s : FastState) (evs : List FastEvent), s.stopped = false →
        (∀ e ∈ evs, e ≠ FastEvent.failure) →
        (runFast s evs).stopped = false) := by
  refine ⟨by decide, by decide, by decide, by decide, ?_, ?_⟩
  · intro s d hs
    constructor <;> simp [fastIter, hs]
  · intro s evs hs hall
    exact runFast_no_failure_not_stopped evs s hs hall

/-- C1 witness: the amended theorem applied at the initial state — one
measurement iteration resets the counter, and a run of three `None`
measurements leaves the loop running. -/
theorem c1_fast_loop_termination_witness :
    (fastIter initFast (FastEvent.measurement none)).consecutive_errors = 0
    ∧ (runFast initFast
        (List.replicate 3 (FastEvent.measurement none))).stopped = false :=
  ⟨(c1_fast_loop_termination.2.2.2.2.1 initFast none rfl).1,
   c1_fast_loop_termination.2.2.2.2.2 initFast
     (List.replicate 3 (FastEvent.measurement none)) rfl (by decide)⟩

/-- C2 counterexample: five consecutive vision failures with a failing
camera reinitialization terminate the slow loop (the recovery `except`
clause executes `break`), contradicting the claim that the alert loop
keeps running for every failure sequence while the running flag is
set. -/
theorem c2_counterexample :
    (runSlow initSlow (List.replicate 5 (SlowEvent.failure false))).stopped
      = true := by
  decide

/-- C2 (amended): after 5 consecutive vision failures the slow loop
attempts exactly one camera reinitialization; on success it resets the
error counter to 0 and continues; on failure it terminates (it does not
continue operating); four consecutive failures leave it running, and any
completed iteration resets the error counter. -/
theorem c2_slow_loop_recovery :
    (runSlow initSlow (List.replicate 4 (SlowEvent.failure false))).stopped
      = false
    ∧ runSlow initSlow (List.replicate 5 (SlowEvent.failure true))
      = { consecutive_errors := 0, recovery_attempts := 1,
          camera_reinits := 1, stopped := false }
    ∧ runSlow initSlow (List.replicate 5 (SlowEvent.failure false))
      = { consecutive_errors := 5, recovery_attempts := 1,
          camera_reinits := 0, stopped := true }
    ∧ (∀ s : SlowState, s.stopped = false →
        (slowIter s SlowEvent.iteration).consecutive_errors = 0) := by
  refine ⟨by decide, by decide, by decide, ?_⟩
  intro s hs
  simp [slowIter, hs]

/-- C2 witness: the amended theorem applied at the initial state — a
completed iteration resets the counter to 0. -/
theorem c2_slow_loop_recovery_witness :
    (slowIter initSlow SlowEvent.iteration).consecutive_errors = 0 :=
  c2_slow_loop_recovery.2.2.2 initSlow rfl

/-- C4 witness: the amended theorem applied at the concrete offset
`δ = 1/2`. -/
theorem c4_boundary_continuity_witness :
    |(calculate_intensity (some (30 - 1/2))).1
      - (calculate_intensity (some 30)).1| ≤ 1
    ∧ |(calculate_intensity (some (60 - 1/2))).1
      - (calculate_intensity (some 60)).1| ≤ 1
    ∧ |(calculate_intensity (some (100 - 1/2))).1
      - (calculate_intensity (some 100)).1| ≤ 1
    ∧ (calculate_intensity (some (150 - 1/2))).1 = 21
    ∧ (calculate_intensity (some 150)).1 = 0 :=
  c4_boundary_continuity (1/2) (by norm_num) (by norm_num)

end Navicane
